import Mathlib

/-!
Verification of the VTUHUB-Python CAPTCHA scraper.

Shallow embedding of the repository's core logic:
  * `src/services/Gray.py`        — `clean_captcha`, the image-cleaning pipeline;
  * `src/services/TrOCR.py`       — `run_ocr` text post-processing (the TrOCR
    model itself is a black box; the embedding takes its decoded raw text as input);
  * `src/services/trocr_mp.py`    — `TrOCRRunner.process_file` symbol remap;
  * `src/services/mainclass.py`   — `VTUScraper.run` and the `__main__` retry loop,
    with the HTTP transport scripted as an oracle of per-attempt outcomes.

Machine integers are modelled as `Nat` (all pixel values are 8-bit and no
operation overflows); the float threshold of `Gray.py` is modelled exactly
over `ℚ`.
-/

namespace VTUHub

/-! ## Python string primitives -/

/-- Python whitespace characters recognised by `str.split()` / `str.strip()`
(ASCII subset: space, tab, newline, carriage return, vertical tab, form feed). -/
def pyWs (c : Char) : Bool :=
  (c == ' ') || (c == '\t') || (c == '\n') || (c == '\r') ||
  (c == Char.ofNat 11) || (c == Char.ofNat 12)

/-- Boolean prefix test on character lists. -/
def isPrefixB : List Char → List Char → Bool
  | [], _ => true
  | _ :: _, [] => false
  | a :: as, b :: bs => (a == b) && isPrefixB as bs

/-- Boolean occurrence test: does `needle` occur contiguously in the list? -/
def containsList (needle : List Char) : List Char → Bool
  | [] => isPrefixB needle []
  | c :: rest => isPrefixB needle (c :: rest) || containsList needle rest

/-- Python's substring operator `needle in hay` on strings. -/
def containsSub (hay needle : String) : Bool :=
  containsList needle.data hay.data

/-- Python `s.replace(".", "")`: removes every period character. -/
def removeDots (s : String) : String :=
  String.mk (s.data.filter (fun c => c != '.'))

/-- Python `"".join(s.split())`: removes every whitespace character. -/
def removeSpace (s : String) : String :=
  String.mk (s.data.filter (fun c => !pyWs c))

/-- Python `s.strip()`: drops leading and trailing whitespace. -/
def pyStrip (s : String) : String :=
  String.mk (((s.data.dropWhile pyWs).reverse.dropWhile pyWs).reverse)

/-! ## Recognizer post-processing

`TrOCR.run_ocr` (src/services/TrOCR.py lines 44-46) decodes the model output
to `text` and then computes
`ctext = text.replace(".", "")` and `cap_text = "".join(ctext.split())`.
The model is the black-box oracle, so the embedding takes its raw decoded
text as the argument. -/

/-- Post-processing performed by `run_ocr` on the raw model text. -/
def run_ocr (text : String) : String :=
  removeSpace (removeDots text)

/-- The `SYMBOL_MAP` table of `trocr_mp.TrOCRRunner.process_file`
(`str.maketrans` dictionary): confusable symbols are rewritten to letters,
the listed punctuation maps to the empty string, and every character not in
the table is left unchanged by `str.translate`. -/
def symbolMap (c : Char) : String :=
  if c == '£' then "F"
  else if c == '@' then "A"
  else if c == '$' then "S"
  else if c == '!' then "I"
  else if c == '|' then "I"
  else if c == '§' then "S"
  else if c == '€' then "E"
  else if c == '¥' then "Y"
  else if c == '¢' then "C"
  else if c == '?' then ""
  else if c == '*' then ""
  else if c == '#' then ""
  else if c == ',' then ""
  else if c == '.' then ""
  else if c == ':' then ""
  else if c == Char.ofNat 39 then ""
  else String.singleton c

/-- Python `s.translate(SYMBOL_MAP)`. -/
def pyTranslate (s : String) : String :=
  String.mk (s.data.flatMap (fun c => (symbolMap c).data))

/-- `trocr_mp.TrOCRRunner.process_file` post-processing of the OCR output:
`ocr_clean = "".join(ocr_raw.split()); ocr_clean = ocr_clean.translate(SYMBOL_MAP)`. -/
def process_file_clean (ocr_raw : String) : String :=
  pyTranslate (removeSpace ocr_raw)

/-! ## Image cleaning (`src/services/Gray.py`, `clean_captcha`) -/

/-- An 8-bit RGB pixel. -/
structure RGB where
  r : Nat
  g : Nat
  b : Nat

/-- A raw decoded image: dimensions plus a pixel map (consulted at
row `i < h`, column `j < w`). -/
structure RGBImage where
  h : Nat
  w : Nat
  pix : Nat → Nat → RGB

/-- A single-channel 8-bit image of the same shape. -/
structure GrayImage where
  h : Nat
  w : Nat
  pix : Nat → Nat → Nat

/-- `ImageOps.grayscale` / PIL `convert("L")`: ITU-R 601-2 luma transform,
Pillow's rounded integer kernel `(r*19595 + g*38470 + b*7471 + 0x8000) >> 16`. -/
def grayPix (img : RGBImage) (i j : Nat) : Nat :=
  ((img.pix i j).r * 19595 + (img.pix i j).g * 38470 + (img.pix i j).b * 7471 + 32768) / 65536

/-- Step 1 of `clean_captcha`: grayscale conversion. -/
def toGray (img : RGBImage) : GrayImage :=
  ⟨img.h, img.w, fun i j => grayPix img i j⟩

/-- Clamp an integer index into `[0, len-1]` (edge replication, the border
policy of Pillow's rank filter, which expands the image by one replicated
border pixel before filtering). -/
def clampIdx (n : Int) (len : Nat) : Nat :=
  (min (max n 0) ((len : Int) - 1)).toNat

/-- Insertion into a sorted list. -/
def insertSorted (x : Nat) : List Nat → List Nat
  | [] => [x]
  | y :: ys => if x ≤ y then x :: y :: ys else y :: insertSorted x ys

/-- Insertion sort. -/
def sortNat (l : List Nat) : List Nat :=
  l.foldr insertSorted []

/-- Step 2 of `clean_captcha`: `ImageFilter.MedianFilter(size=3)` — each pixel
becomes the median (rank 4 of the 9 sorted values) of its 3×3 neighborhood,
with replicated edges. -/
def medianFilter (g : GrayImage) : GrayImage :=
  ⟨g.h, g.w, fun i j =>
    (sortNat ((List.range 3).flatMap (fun di =>
      (List.range 3).map (fun dj =>
        g.pix (clampIdx ((i : Int) + di - 1) g.h)
              (clampIdx ((j : Int) + dj - 1) g.w))))).getD 4 0⟩

/-- All pixel samples of the image, row-major (the flattened numpy array). -/
def pixList (g : GrayImage) : List Nat :=
  (List.range g.h).flatMap (fun i => (List.range g.w).map (g.pix i))

/-- numpy `arr.sum()` over the whole image. -/
def imgSum (g : GrayImage) : Nat :=
  (pixList g).foldr (· + ·) 0

/-- Minimum of a list of naturals (the head for a singleton). -/
def listMin : List Nat → Nat
  | [] => 0
  | [x] => x
  | x :: y :: xs => min x (listMin (y :: xs))

/-- numpy `arr.min()` over the whole image. -/
def imgMin (g : GrayImage) : Nat :=
  listMin (pixList g)

/-- Step 3 of `clean_captcha`: the single global scalar
`threshold = (arr.mean() + arr.min()) / 2`, modelled exactly over `ℚ`. -/
def threshold (g : GrayImage) : ℚ :=
  ((imgSum g : ℚ) / ((g.h * g.w : Nat) : ℚ) + (imgMin g : ℚ)) / 2

/-- Step 3/4 of `clean_captcha`: `binary = (arr < threshold)`; the mask is 1
exactly where the smoothed gray value is strictly below the threshold. -/
def binaryMask (g : GrayImage) : Nat → Nat → Bool :=
  fun i j => decide ((g.pix i j : ℚ) < threshold g)

/-- One cell of `np.pad(mask, 1, constant_values=0)`, as a 0/1 count:
padded coordinates `(r, c)`; the border (r = 0, r = h+1, c = 0, c = w+1) is
background. -/
def padVal (m : Nat → Nat → Bool) (h w r c : Nat) : Nat :=
  if 1 ≤ r ∧ r ≤ h ∧ 1 ≤ c ∧ c ≤ w then (if m (r-1) (c-1) then 1 else 0) else 0

/-- `window.sum()` for `window = pad[i:i+3, j:j+3]`: the number of foreground
pixels in the 3×3 padded neighborhood of original pixel `(i, j)`. -/
def windowSum (m : Nat → Nat → Bool) (h w i j : Nat) : Nat :=
  (((List.range 3).flatMap (fun di =>
    (List.range 3).map (fun dj => padVal m h w (i + di) (j + dj))))).foldr (· + ·) 0

/-- Step 5 of `clean_captcha`: `out_mask[i, j] = 1 if window.sum() >= 5 else 0`. -/
def majorityOut (m : Nat → Nat → Bool) (h w i j : Nat) : Bool :=
  decide (5 ≤ windowSum m h w i j)

/-- `clean_captcha` (src/services/Gray.py): grayscale, 3×3 median smoothing,
global threshold, 3×3 majority vote on the zero-padded mask, and rendering
foreground ↦ 0, background ↦ 255. -/
def clean_captcha (img : RGBImage) : GrayImage :=
  ⟨img.h, img.w, fun i j =>
    if majorityOut (binaryMask (medianFilter (toGray img))) img.h img.w i j
    then 0 else 255⟩

/-! ## The scrape-and-retry machine (`src/services/mainclass.py`)

`VTUScraper.run` performs one attempt: GET the index page, extract the
`Token` input, find the CAPTCHA URL, fetch/decode/OCR the CAPTCHA, and POST
the result form; any raised exception is caught by the surrounding
`except Exception` and returned as the dict `{"error": str(e)}`.  The HTTP
transport, HTML extraction and OCR model are black boxes, so one attempt is
scripted by an `Attempt` record of their outcomes. -/

/-- A Python value returned by `VTUScraper.run`: either a string, or the
`{"error": str(e)}` dict produced by the `except` clause. -/
inductive PyResult where
  | str (s : String)
  | errDict (msg : String)
deriving DecidableEq

/-- Scripted outcome of the collaborators during one call of
`VTUScraper.run`:
  * `indexOk`      — the index-page GET does not raise;
  * `tokenFound`   — BeautifulSoup finds an `input` named `Token`;
  * `captchaFound` — the regex finds a `/captcha/` image URL in the HTML;
  * `decodeOk`     — the CAPTCHA GET, `Image.open` and `run_ocr` do not raise;
  * `ocrText`      — the text `run_ocr` returns when it succeeds;
  * `postOk`       — the submission POST does not raise;
  * `postBody`     — the response body `r.text` of the POST;
  * `errMsg`       — `str(e)` of whichever exception occurred, if any. -/
structure Attempt where
  indexOk : Bool
  tokenFound : Bool
  captchaFound : Bool
  decodeOk : Bool
  ocrText : String
  postOk : Bool
  postBody : String
  errMsg : String
deriving DecidableEq

/-- What one call of `VTUScraper.run` produces: the returned Python value,
the number of submission POSTs initiated, and the `captchacode` field of the
payload when a POST was initiated. -/
structure RunOutcome where
  result : PyResult
  posts : Nat
  captchaSent : Option String
deriving DecidableEq

/-- One call of `VTUScraper.run`, following the control flow of
src/services/mainclass.py lines 47-123:
an exception in the index GET, in the CAPTCHA fetch/decode/OCR, or in the
POST reaches the catch-all and yields `{"error": str(e)}`; a missing token
returns the string `"TOKEN NOT FOUND"` before any POST; a missing CAPTCHA
URL leaves `captcha_text` empty and the POST still happens;
`captcha_text = run_ocr(img).strip()` otherwise. -/
def runAttempt (a : Attempt) : RunOutcome :=
  if a.indexOk then
    if a.tokenFound then
      if a.captchaFound && !a.decodeOk then ⟨PyResult.errDict a.errMsg, 0, none⟩
      else
        if a.postOk then
          ⟨PyResult.str a.postBody, 1,
            some (if a.captchaFound then pyStrip a.ocrText else "")⟩
        else
          ⟨PyResult.errDict a.errMsg, 1,
            some (if a.captchaFound then pyStrip a.ocrText else "")⟩
    else ⟨PyResult.str "TOKEN NOT FOUND", 0, none⟩
  else ⟨PyResult.errDict a.errMsg, 0, none⟩

/-- The server's invalid-CAPTCHA marker tested by the `__main__` loop. -/
def invalidMarker : String := "Invalid captcha code !!!"

/-- The loop's test `"Invalid captcha code !!!" in result`: substring search
when `result` is a string; key membership (always false, the only key being
`"error"`) when it is the error dict. -/
def invalidCheck : PyResult → Bool
  | PyResult.str s => containsSub s invalidMarker
  | PyResult.errDict _ => false

/-- The `while attempt < MAX_RETRY` loop of the `__main__` block
(src/services/mainclass.py lines 132-148), with `fuel = MAX_RETRY - attempt`
iterations remaining.  Arguments: completed attempts, current `result`,
POSTs initiated so far.  Returns the final `result`, the number of attempts
performed and the total number of POSTs initiated. -/
def loopAux (script : Nat → Attempt) : Nat → Nat → PyResult → Nat → PyResult × Nat × Nat
  | 0, attempt, result, posts => (result, attempt, posts)
  | fuel+1, attempt, _, posts =>
    if invalidCheck (runAttempt (script attempt)).result then
      loopAux script fuel (attempt + 1) (runAttempt (script attempt)).result
        (posts + (runAttempt (script attempt)).posts)
    else
      ((runAttempt (script attempt)).result, attempt + 1,
        posts + (runAttempt (script attempt)).posts)

/-- The whole `__main__` retry loop: `attempt = 0`, `result = ""`, then loop
up to `maxRetry` attempts, breaking on the first result that does not
contain the invalid-CAPTCHA marker. -/
def mainLoop (script : Nat → Attempt) (maxRetry : Nat) : PyResult × Nat × Nat :=
  loopAux script maxRetry 0 (PyResult.str "") 0

/-- An attempt in which every collaborator succeeds, so that the run performs
a full fetch → solve → submit cycle and returns the POST body. -/
def fullCycle (a : Attempt) : Prop :=
  a.indexOk = true ∧ a.tokenFound = true ∧
  (a.captchaFound = true → a.decodeOk = true) ∧ a.postOk = true

lemma runAttempt_full (a : Attempt) (h : fullCycle a) :
    runAttempt a = ⟨PyResult.str a.postBody, 1,
      some (if a.captchaFound then pyStrip a.ocrText else "")⟩ := by
  obtain ⟨h1, h2, h3, h4⟩ := h
  cases hc : a.captchaFound with
  | true => simp [runAttempt, h1, h2, h3 hc, h4, hc]
  | false => simp [runAttempt, h1, h2, h4, hc]

lemma loopAux_cont {script : Nat → Attempt} {fuel attempt posts : Nat}
    (r : PyResult) (h : invalidCheck (runAttempt (script attempt)).result = true) :
    loopAux script (fuel + 1) attempt r posts =
      loopAux script fuel (attempt + 1) (runAttempt (script attempt)).result
        (posts + (runAttempt (script attempt)).posts) := by
  simp [loopAux, h]

lemma loopAux_stop {script : Nat → Attempt} {fuel attempt posts : Nat}
    (r : PyResult) (h : invalidCheck (runAttempt (script attempt)).result = false) :
    loopAux script (fuel + 1) attempt r posts =
      ((runAttempt (script attempt)).result, attempt + 1,
        posts + (runAttempt (script attempt)).posts) := by
  simp [loopAux, h]

lemma loopAux_attempts_ge (script : Nat → Attempt) :
    ∀ fuel attempt r p, attempt ≤ (loopAux script fuel attempt r p).2.1 := by
  intro fuel
  induction fuel with
  | zero => intro attempt r p; simp [loopAux]
  | succ n ih =>
    intro attempt r p
    by_cases h : invalidCheck (runAttempt (script attempt)).result = true
    · rw [loopAux_cont _ h]
      exact le_trans (Nat.le_succ attempt) (ih (attempt + 1) _ _)
    · rw [loopAux_stop _ (by simpa using h)]
      exact Nat.le_succ attempt

lemma loopAux_attempts_ge_succ (script : Nat → Attempt) (fuel attempt : Nat)
    (r : PyResult) (p : Nat) (hfuel : 1 ≤ fuel) :
    attempt + 1 ≤ (loopAux script fuel attempt r p).2.1 := by
  cases fuel with
  | zero => omega
  | succ n =>
    by_cases h : invalidCheck (runAttempt (script attempt)).result = true
    · rw [loopAux_cont _ h]
      exact loopAux_attempts_ge script n (attempt + 1) _ _
    · rw [loopAux_stop _ (by simpa using h)]

/-! ## Helper lemmas -/

lemma isPrefixB_iff (a b : List Char) : isPrefixB a b = true ↔ a <+: b := by
  induction a generalizing b with
  | nil => simp [isPrefixB]
  | cons x xs ih =>
    cases b with
    | nil => simp [isPrefixB]
    | cons y ys =>
      simp [isPrefixB, ih, List.cons_prefix_cons, Bool.and_eq_true, beq_iff_eq]

lemma containsList_iff (needle hay : List Char) :
    containsList needle hay = true ↔ needle <:+: hay := by
  induction hay with
  | nil => simp [containsList, isPrefixB_iff]
  | cons c rest ih =>
    simp [containsList, isPrefixB_iff, ih, List.infix_cons_iff]

lemma containsSub_iff (hay needle : String) :
    containsSub hay needle = true ↔ needle.data <:+: hay.data :=
  containsList_iff needle.data hay.data

lemma windowSum_expand (m : Nat → Nat → Bool) (h w i j : Nat) : windowSum m h w i j =
    padVal m h w (i+0) (j+0) + (padVal m h w (i+0) (j+1) + (padVal m h w (i+0) (j+2) +
    (padVal m h w (i+1) (j+0) + (padVal m h w (i+1) (j+1) + (padVal m h w (i+1) (j+2) +
    (padVal m h w (i+2) (j+0) + (padVal m h w (i+2) (j+1) +
      (padVal m h w (i+2) (j+2) + 0)))))))) := rfl

lemma padVal_le_one (m : Nat → Nat → Bool) (h w r c : Nat) : padVal m h w r c ≤ 1 := by
  unfold padVal
  split
  · split <;> omega
  · omega

lemma padVal_row_zero (m : Nat → Nat → Bool) (h w c : Nat) : padVal m h w 0 c = 0 := by
  unfold padVal
  rw [if_neg (by omega)]

lemma padVal_col_zero (m : Nat → Nat → Bool) (h w r : Nat) : padVal m h w r 0 = 0 := by
  unfold padVal
  rw [if_neg (by omega)]

lemma padVal_row_big (m : Nat → Nat → Bool) (h w r c : Nat) (hr : h < r) :
    padVal m h w r c = 0 := by
  unfold padVal
  rw [if_neg (by omega)]

lemma padVal_col_big (m : Nat → Nat → Bool) (h w r c : Nat) (hc : w < c) :
    padVal m h w r c = 0 := by
  unfold padVal
  rw [if_neg (by omega)]

lemma windowSum_corner00_le (m : Nat → Nat → Bool) (h w : Nat) :
    windowSum m h w 0 0 ≤ 4 := by
  rw [windowSum_expand]
  simp only [Nat.zero_add]
  rw [padVal_row_zero, padVal_row_zero, padVal_row_zero,
      padVal_col_zero, padVal_col_zero]
  have h11 := padVal_le_one m h w 1 1
  have h12 := padVal_le_one m h w 1 2
  have h21 := padVal_le_one m h w 2 1
  have h22 := padVal_le_one m h w 2 2
  omega

lemma windowSum_corner0w_le (m : Nat → Nat → Bool) (h w : Nat) (hw : 0 < w) :
    windowSum m h w 0 (w - 1) ≤ 4 := by
  rw [windowSum_expand]
  simp only [Nat.zero_add]
  have e2 : w - 1 + 2 = w + 1 := by omega
  rw [e2]
  rw [padVal_row_zero, padVal_row_zero, padVal_row_zero]
  rw [padVal_col_big m h w 1 (w + 1) (by omega),
      padVal_col_big m h w 2 (w + 1) (by omega)]
  have h10 := padVal_le_one m h w 1 (w - 1 + 0)
  have h11 := padVal_le_one m h w 1 (w - 1 + 1)
  have h20 := padVal_le_one m h w 2 (w - 1 + 0)
  have h21 := padVal_le_one m h w 2 (w - 1 + 1)
  omega

lemma windowSum_cornerh0_le (m : Nat → Nat → Bool) (h w : Nat) (hh : 0 < h) :
    windowSum m h w (h - 1) 0 ≤ 4 := by
  rw [windowSum_expand]
  simp only [Nat.zero_add]
  have e3 : h - 1 + 2 = h + 1 := by omega
  rw [e3]
  rw [padVal_col_zero, padVal_col_zero, padVal_col_zero]
  rw [padVal_row_big m h w (h + 1) 1 (by omega),
      padVal_row_big m h w (h + 1) 2 (by omega)]
  have h01 := padVal_le_one m h w (h - 1 + 0) 1
  have h02 := padVal_le_one m h w (h - 1 + 0) 2
  have h11 := padVal_le_one m h w (h - 1 + 1) 1
  have h12 := padVal_le_one m h w (h - 1 + 1) 2
  omega

lemma windowSum_cornerhw_le (m : Nat → Nat → Bool) (h w : Nat)
    (hh : 0 < h) (hw : 0 < w) :
    windowSum m h w (h - 1) (w - 1) ≤ 4 := by
  rw [windowSum_expand]
  have e2 : w - 1 + 2 = w + 1 := by omega
  have e3 : h - 1 + 2 = h + 1 := by omega
  rw [e2, e3]
  rw [padVal_row_big m h w (h + 1) (w - 1 + 0) (by omega),
      padVal_row_big m h w (h + 1) (w - 1 + 1) (by omega),
      padVal_row_big m h w (h + 1) (w + 1) (by omega)]
  rw [padVal_col_big m h w (h - 1 + 0) (w + 1) (by omega),
      padVal_col_big m h w (h - 1 + 1) (w + 1) (by omega)]
  have a1 := padVal_le_one m h w (h - 1 + 0) (w - 1 + 0)
  have a2 := padVal_le_one m h w (h - 1 + 0) (w - 1 + 1)
  have a3 := padVal_le_one m h w (h - 1 + 1) (w - 1 + 0)
  have a4 := padVal_le_one m h w (h - 1 + 1) (w - 1 + 1)
  omega

lemma majorityOut_eq_false_of_le (m : Nat → Nat → Bool) (h w i j : Nat)
    (hle : windowSum m h w i j ≤ 4) : majorityOut m h w i j = false := by
  simp only [majorityOut, decide_eq_false_iff_not]
  omega

/-! ## Concrete instances used by counterexamples and witnesses -/

/-- A 3×3 binary mask with a single foreground pixel at the center,
surrounded by 8 background pixels. -/
def isolatedMask : Nat → Nat → Bool := fun i j => decide (i = 1 ∧ j = 1)

/-- A solid 3×3 foreground block. -/
def solidMask : Nat → Nat → Bool := fun _ _ => true

/-- A 1×4 smoothed grayscale image with pixel values 0, 1, 3, 4: its
threshold is ((0+1+3+4)/4 + 0)/2 = 1, and its second pixel equals the
threshold exactly. -/
def grayRow : GrayImage := ⟨1, 4, fun _ j => [0, 1, 3, 4].getD j 0⟩

/-- A 1×1 black raw image. -/
def onePixImage : RGBImage := ⟨1, 1, fun _ _ => ⟨0, 0, 0⟩⟩

/-- An attempt whose submission response reports an invalid CAPTCHA. -/
def invalidAttempt : Attempt :=
  ⟨true, true, true, true, "AB12", true, "<b>Invalid captcha code !!!</b>", ""⟩

/-- An attempt whose submission response is a result page. -/
def successAttempt : Attempt :=
  ⟨true, true, true, true, "CD34", true, "<table>University Results</table>", ""⟩

/-- A scripted transport: invalid captcha on the first two attempts,
success on the third. -/
def scriptC1 : Nat → Attempt := fun k => if k < 2 then invalidAttempt else successAttempt

/-- An attempt whose submission response body is exactly the marker. -/
def allInvalidAttempt : Attempt :=
  ⟨true, true, true, true, "AB12", true, "Invalid captcha code !!!", ""⟩

/-- An attempt whose index page has no `Token` input. -/
def noTokenAttempt : Attempt := ⟨true, false, false, true, "", true, "", ""⟩

/-- An attempt whose index page has no CAPTCHA URL. -/
def noCaptchaAttempt : Attempt := ⟨true, true, false, true, "", true, "RESULT PAGE", ""⟩

/-- An attempt whose CAPTCHA image fails to decode. -/
def decodeFailAttempt : Attempt :=
  ⟨true, true, true, false, "", true, "RESULT PAGE", "cannot identify image file"⟩

/-- A scripted transport that always succeeds with a result page. -/
def successScript : Nat → Attempt := fun _ => successAttempt

/-! ## Claim theorems -/

/-- C3: in the image-cleaning step the threshold is the single global scalar
(mean of all pixels + minimum pixel value)/2 over the entire smoothed
image, a pixel is marked foreground exactly when its value is strictly less
than that threshold, and a pixel whose value equals the threshold is
background. -/
theorem threshold_strictly_less :
    (∀ (g : GrayImage) (i j : Nat),
      binaryMask g i j = true ↔ (g.pix i j : ℚ) < threshold g) ∧
    (∀ (g : GrayImage) (i j : Nat),
      (g.pix i j : ℚ) = threshold g → binaryMask g i j = false) := by
  constructor
  · intro g i j
    simp [binaryMask]
  · intro g i j heq
    simp [binaryMask, heq]

theorem threshold_strictly_less_witness : binaryMask grayRow 0 1 = false := by
  apply threshold_strictly_less.2 grayRow 0 1
  have hs : imgSum grayRow = 8 := by decide
  have hm : imgMin grayRow = 0 := by decide
  have hpix : grayRow.pix 0 1 = 1 := by decide
  have hhw : (grayRow.h * grayRow.w : Nat) = 4 := by decide
  rw [threshold, hs, hm, hpix, hhw]
  norm_num

/-- C4: the majority-vote denoise step pads the binary mask with one pixel
of background on every side and outputs foreground iff the 3×3 padded
neighborhood (including the pixel itself) holds at least 5 foreground
pixels; consequently an isolated foreground pixel surrounded by 8
background pixels becomes background (count 1 < 5), and the center of a
solid 3×3 foreground block stays foreground (count 9 ≥ 5). -/
theorem majority_vote_rule :
    (∀ (m : Nat → Nat → Bool) (h w i j : Nat),
      majorityOut m h w i j = true ↔ 5 ≤ windowSum m h w i j) ∧
    majorityOut isolatedMask 3 3 1 1 = false ∧
    majorityOut solidMask 3 3 1 1 = true := by
  refine ⟨?_, by decide, by decide⟩
  intro m h w i j
  simp [majorityOut]

/-- C5: for every input image of size at least 1×1, the cleaned image
produced by `clean_captcha` has exactly the input's dimensions and every
one of its pixel values is exactly 0 or 255. -/
theorem cleaned_image_invariants (img : RGBImage) (hh : 0 < img.h) (hw : 0 < img.w) :
    (clean_captcha img).h = img.h ∧ (clean_captcha img).w = img.w ∧
    ∀ i j, (clean_captcha img).pix i j = 0 ∨ (clean_captcha img).pix i j = 255 := by
  refine ⟨rfl, rfl, ?_⟩
  intro i j
  by_cases hm : majorityOut (binaryMask (medianFilter (toGray img))) img.h img.w i j = true
  · left
    simp [clean_captcha, hm]
  · right
    simp [clean_captcha, hm]

theorem cleaned_image_invariants_witness :
    (clean_captcha onePixImage).h = onePixImage.h ∧
    (clean_captcha onePixImage).w = onePixImage.w ∧
    ∀ i j, (clean_captcha onePixImage).pix i j = 0 ∨
      (clean_captcha onePixImage).pix i j = 255 :=
  cleaned_image_invariants onePixImage (by decide) (by decide)

/-- C10: for every input image the four corner pixels of the image returned
by `clean_captcha` are always 255: a corner's 3×3 window in the
background-padded mask contains at most 4 original pixels, so its
foreground count never reaches the majority threshold of 5. -/
theorem corners_background (img : RGBImage) (hh : 0 < img.h) (hw : 0 < img.w) :
    (clean_captcha img).pix 0 0 = 255 ∧
    (clean_captcha img).pix 0 (img.w - 1) = 255 ∧
    (clean_captcha img).pix (img.h - 1) 0 = 255 ∧
    (clean_captcha img).pix (img.h - 1) (img.w - 1) = 255 := by
  refine ⟨?_, ?_, ?_, ?_⟩
  · have hk := majorityOut_eq_false_of_le (binaryMask (medianFilter (toGray img)))
      img.h img.w 0 0 (windowSum_corner00_le _ img.h img.w)
    simp [clean_captcha, hk]
  · have hk := majorityOut_eq_false_of_le (binaryMask (medianFilter (toGray img)))
      img.h img.w 0 (img.w - 1) (windowSum_corner0w_le _ img.h img.w hw)
    simp [clean_captcha, hk]
  · have hk := majorityOut_eq_false_of_le (binaryMask (medianFilter (toGray img)))
      img.h img.w (img.h - 1) 0 (windowSum_cornerh0_le _ img.h img.w hh)
    simp [clean_captcha, hk]
  · have hk := majorityOut_eq_false_of_le (binaryMask (medianFilter (toGray img)))
      img.h img.w (img.h - 1) (img.w - 1) (windowSum_cornerhw_le _ img.h img.w hh hw)
    simp [clean_captcha, hk]

theorem corners_background_witness :
    (clean_captcha onePixImage).pix 0 0 = 255 ∧
    (clean_captcha onePixImage).pix 0 (onePixImage.w - 1) = 255 ∧
    (clean_captcha onePixImage).pix (onePixImage.h - 1) 0 = 255 ∧
    (clean_captcha onePixImage).pix (onePixImage.h - 1) (onePixImage.w - 1) = 255 :=
  corners_background onePixImage (by decide) (by decide)

/-- C1: with a retry budget of 5, if the submission bodies of the first two
attempts contain the invalid-captcha marker and the third does not, the
retry loop performs exactly 3 full fetch/solve/submit cycles (3 attempts,
3 POSTs, no more and no fewer) and returns the third attempt's body
unchanged. -/
theorem retry_three_cycles (script : Nat → Attempt)
    (hfull : ∀ k, k < 3 → fullCycle (script k))
    (hm0 : containsSub (script 0).postBody invalidMarker = true)
    (hm1 : containsSub (script 1).postBody invalidMarker = true)
    (hm2 : containsSub (script 2).postBody invalidMarker = false) :
    mainLoop script 5 = (PyResult.str (script 2).postBody, 3, 3) := by
  have r0 := runAttempt_full (script 0) (hfull 0 (by omega))
  have r1 := runAttempt_full (script 1) (hfull 1 (by omega))
  have r2 := runAttempt_full (script 2) (hfull 2 (by omega))
  have i0 : invalidCheck (runAttempt (script 0)).result = true := by
    rw [r0]; exact hm0
  have i1 : invalidCheck (runAttempt (script 1)).result = true := by
    rw [r1]; exact hm1
  have i2 : invalidCheck (runAttempt (script 2)).result = false := by
    rw [r2]; exact hm2
  calc mainLoop script 5
      = loopAux script (4 + 1) 0 (PyResult.str "") 0 := rfl
    _ = loopAux script 4 1 (runAttempt (script 0)).result
          (0 + (runAttempt (script 0)).posts) := loopAux_cont _ i0
    _ = loopAux script (3 + 1) 1 (PyResult.str (script 0).postBody) 1 := by rw [r0]; rfl
    _ = loopAux script 3 2 (runAttempt (script 1)).result
          (1 + (runAttempt (script 1)).posts) := loopAux_cont _ i1
    _ = loopAux script (2 + 1) 2 (PyResult.str (script 1).postBody) 2 := by rw [r1]; rfl
    _ = ((runAttempt (script 2)).result, 2 + 1, 2 + (runAttempt (script 2)).posts) :=
        loopAux_stop _ i2
    _ = (PyResult.str (script 2).postBody, 3, 3) := by rw [r2]; rfl

theorem retry_three_cycles_witness :
    mainLoop scriptC1 5 = (PyResult.str (scriptC1 2).postBody, 3, 3) := by
  apply retry_three_cycles scriptC1
  · intro k hk
    rcases (by omega : k = 0 ∨ k = 1 ∨ k = 2) with h | h | h <;> subst h <;>
      exact ⟨rfl, rfl, fun _ => rfl, rfl⟩
  · decide
  · decide
  · decide

/-- C2 counterexample: with a budget of 3 and a transport that always
reports an invalid CAPTCHA, the loop does stop after exactly 3 attempts,
but the value handed to the caller is the raw response body of the last
attempt (the string containing the marker) — there is no structured
retries-exhausted failure descriptor. -/
theorem retries_exhausted_cex :
    mainLoop (fun _ => allInvalidAttempt) 3 =
      (PyResult.str "Invalid captcha code !!!", 3, 3) := by decide

/-- C2 (amended): with a budget of 3 and every attempt's submission
response containing the invalid-captcha marker, the loop stops after
exactly 3 attempts (performing 3 POSTs) and the caller receives the raw
response body of the third (last) attempt, not a structured failure
descriptor. -/
theorem retries_exhausted_returns_last_body (script : Nat → Attempt)
    (hfull : ∀ k, k < 3 → fullCycle (script k))
    (hm : ∀ k, k < 3 → containsSub (script k).postBody invalidMarker = true) :
    mainLoop script 3 = (PyResult.str (script 2).postBody, 3, 3) := by
  have r0 := runAttempt_full (script 0) (hfull 0 (by omega))
  have r1 := runAttempt_full (script 1) (hfull 1 (by omega))
  have r2 := runAttempt_full (script 2) (hfull 2 (by omega))
  have i0 : invalidCheck (runAttempt (script 0)).result = true := by
    rw [r0]; exact hm 0 (by omega)
  have i1 : invalidCheck (runAttempt (script 1)).result = true := by
    rw [r1]; exact hm 1 (by omega)
  have i2 : invalidCheck (runAttempt (script 2)).result = true := by
    rw [r2]; exact hm 2 (by omega)
  calc mainLoop script 3
      = loopAux script (2 + 1) 0 (PyResult.str "") 0 := rfl
    _ = loopAux script 2 1 (runAttempt (script 0)).result
          (0 + (runAttempt (script 0)).posts) := loopAux_cont _ i0
    _ = loopAux script (1 + 1) 1 (PyResult.str (script 0).postBody) 1 := by rw [r0]; rfl
    _ = loopAux script 1 2 (runAttempt (script 1)).result
          (1 + (runAttempt (script 1)).posts) := loopAux_cont _ i1
    _ = loopAux script (0 + 1) 2 (PyResult.str (script 1).postBody) 2 := by rw [r1]; rfl
    _ = loopAux script 0 3 (runAttempt (script 2)).result
          (2 + (runAttempt (script 2)).posts) := loopAux_cont _ i2
    _ = (PyResult.str (script 2).postBody, 3, 3) := by rw [r2]; rfl

theorem retries_exhausted_witness :
    mainLoop (fun _ => allInvalidAttempt) 3 =
      (PyResult.str ((fun _ => allInvalidAttempt) 2).postBody, 3, 3) :=
  retries_exhausted_returns_last_body (fun _ => allInvalidAttempt)
    (fun _ _ => ⟨rfl, rfl, fun _ => rfl, rfl⟩)
    (fun _ _ =>
      (by decide : containsSub allInvalidAttempt.postBody invalidMarker = true))

/-- C6 counterexample: the scraper's recognizer adapter (`run_ocr`) leaves
the remappable symbol "@" unchanged (no remap table is applied on the
scrape path), and even the batch runner's remap leaves the unmapped stray
punctuation ";" in place rather than dropping it. -/
theorem normalization_cex :
    run_ocr "@" = "@" ∧ process_file_clean (run_ocr "A;B") = "A;B" := by
  constructor <;> rfl

/-- C6 (amended): `run_ocr` removes every period character and every
whitespace character (raw "AB3.C D" yields "AB3CD") and applies no symbol
remap; the batch runner's `process_file` additionally rewrites the
characters of the fixed remap table (for example "@" becomes "A") and drops
the table's punctuation entries, while characters outside the table pass
through unchanged (for example ";" is kept). -/
theorem normalization_amended :
    run_ocr "AB3.C D" = "AB3CD" ∧
    (∀ raw : String, ∀ c ∈ (run_ocr raw).data, c ≠ '.' ∧ pyWs c = false) ∧
    process_file_clean (run_ocr "@B3.C D") = "AB3CD" ∧
    symbolMap ';' = String.singleton ';' := by
  refine ⟨by rfl, ?_, by rfl, by rfl⟩
  intro raw c hc
  have hc' : c ∈ (raw.data.filter (fun x => x != '.')).filter (fun x => !pyWs x) := hc
  simp only [List.mem_filter] at hc'
  constructor
  · simpa using hc'.1.2
  · simpa using hc'.2

theorem normalization_witness : 'A' ≠ '.' ∧ pyWs 'A' = false :=
  normalization_amended.2.1 "A" 'A' (by decide)

/-- C7: if the token input is missing from the very first index page, the
run returns the token-not-found result (the string "TOKEN NOT FOUND") with
zero submission POSTs performed, and the whole retry loop ends immediately
after that single attempt with that result and zero POSTs in total. -/
theorem token_not_found_immediate (script : Nat → Attempt) (n : Nat)
    (hidx : (script 0).indexOk = true) (htok : (script 0).tokenFound = false) :
    runAttempt (script 0) = ⟨PyResult.str "TOKEN NOT FOUND", 0, none⟩ ∧
    mainLoop script (n + 1) = (PyResult.str "TOKEN NOT FOUND", 1, 0) := by
  have hr : runAttempt (script 0) = ⟨PyResult.str "TOKEN NOT FOUND", 0, none⟩ := by
    simp [runAttempt, hidx, htok]
  have hi : invalidCheck (runAttempt (script 0)).result = false := by
    rw [hr]; decide
  refine ⟨hr, ?_⟩
  calc mainLoop script (n + 1)
      = loopAux script (n + 1) 0 (PyResult.str "") 0 := rfl
    _ = ((runAttempt (script 0)).result, 0 + 1, 0 + (runAttempt (script 0)).posts) :=
        loopAux_stop _ hi
    _ = (PyResult.str "TOKEN NOT FOUND", 1, 0) := by rw [hr]; rfl

theorem token_not_found_witness :
    runAttempt ((fun _ => noTokenAttempt) 0) = ⟨PyResult.str "TOKEN NOT FOUND", 0, none⟩ ∧
    mainLoop (fun _ => noTokenAttempt) (0 + 1) = (PyResult.str "TOKEN NOT FOUND", 1, 0) :=
  token_not_found_immediate (fun _ => noTokenAttempt) 0 (by decide) (by decide)

/-- C8: outcome classification is pure string inspection — a submission
response is classified invalid-captcha exactly when its body contains the
server-emitted marker as a substring; a body without the marker ends the
loop after that single attempt with the body returned uninterpreted, and a
body with the marker triggers a retry (a second attempt with a freshly
scripted token/cookie/captcha outcome). -/
theorem outcome_classification (script : Nat → Attempt) (n : Nat) (b : String)
    (h0 : fullCycle (script 0)) (hb : (script 0).postBody = b) :
    (containsSub b invalidMarker = true ↔ invalidMarker.data <:+: b.data) ∧
    (containsSub b invalidMarker = false →
      mainLoop script (n + 1) = (PyResult.str b, 1, 1)) ∧
    (containsSub b invalidMarker = true →
      2 ≤ (mainLoop script (n + 2)).2.1) := by
  have r0 := runAttempt_full (script 0) h0
  refine ⟨containsSub_iff b invalidMarker, ?_, ?_⟩
  · intro hno
    have hi : invalidCheck (runAttempt (script 0)).result = false := by
      rw [r0, hb]; exact hno
    calc mainLoop script (n + 1)
        = loopAux script (n + 1) 0 (PyResult.str "") 0 := rfl
      _ = ((runAttempt (script 0)).result, 0 + 1, 0 + (runAttempt (script 0)).posts) :=
          loopAux_stop _ hi
      _ = (PyResult.str b, 1, 1) := by rw [r0, hb]; rfl
  · intro hyes
    have hi : invalidCheck (runAttempt (script 0)).result = true := by
      rw [r0, hb]; exact hyes
    have step : mainLoop script (n + 2) =
        loopAux script (n + 1) 1 (runAttempt (script 0)).result
          (0 + (runAttempt (script 0)).posts) := loopAux_cont _ hi
    rw [step]
    have hge := loopAux_attempts_ge_succ script (n + 1) 1 (runAttempt (script 0)).result
      (0 + (runAttempt (script 0)).posts) (by omega)
    omega

theorem outcome_classification_witness :
    (containsSub "<table>University Results</table>" invalidMarker = true ↔
      invalidMarker.data <:+: "<table>University Results</table>".data) ∧
    (containsSub "<table>University Results</table>" invalidMarker = false →
      mainLoop successScript (0 + 1) =
        (PyResult.str "<table>University Results</table>", 1, 1)) ∧
    (containsSub "<table>University Results</table>" invalidMarker = true →
      2 ≤ (mainLoop successScript (0 + 2)).2.1) :=
  outcome_classification successScript 0 "<table>University Results</table>"
    ⟨rfl, rfl, fun _ => rfl, rfl⟩ rfl

/-- C9 counterexample: an attempt whose CAPTCHA image fetch/decode raises
does not proceed with an empty captcha text — the exception reaches the
catch-all handler, the run returns the error dict, and zero submission
POSTs are performed. -/
theorem decode_failure_aborts :
    runAttempt decodeFailAttempt =
      ⟨PyResult.errDict "cannot identify image file", 0, none⟩ := rfl

/-- C9 (amended): when no CAPTCHA URL is found in the index page, the
attempt proceeds with an empty captcha text and still performs the
submission POST; but when fetching or decoding a found CAPTCHA image
raises, the attempt is aborted by the catch-all handler, which returns the
error dict without performing any POST. -/
theorem captcha_failure_paths (a : Attempt) (h1 : a.indexOk = true)
    (h2 : a.tokenFound = true) :
    (a.captchaFound = false → a.postOk = true →
      runAttempt a = ⟨PyResult.str a.postBody, 1, some ""⟩) ∧
    (a.captchaFound = true → a.decodeOk = false →
      runAttempt a = ⟨PyResult.errDict a.errMsg, 0, none⟩) := by
  constructor
  · intro hc hp
    simp [runAttempt, h1, h2, hc, hp]
  · intro hc hd
    simp [runAttempt, h1, h2, hc, hd]

theorem captcha_failure_witness :
    runAttempt noCaptchaAttempt = ⟨PyResult.str noCaptchaAttempt.postBody, 1, some ""⟩ :=
  (captcha_failure_paths noCaptchaAttempt rfl rfl).1 rfl rfl

end VTUHub
